import Mathlib

/-!
Verification of the satellite water shield computation engine
(`water_shield.py`): orbital parameters, water shield configuration,
radiation shielding, thermal cycling, power generation, and the
aggregated system status. All numeric quantities are modelled over the
real numbers.
-/

noncomputable section

namespace WaterShield

/-- Parameters defining the satellite's orbital characteristics
(dataclass `OrbitalParameters`). -/
structure OrbitalParameters where
  altitude_km : ℝ
  orbital_period_min : ℝ
  eclipse_fraction : ℝ

/-- Duration of sunlight exposure per orbit (minutes); property
`OrbitalParameters.sunlight_duration_min`. -/
def OrbitalParameters.sunlight_duration_min (p : OrbitalParameters) : ℝ :=
  p.orbital_period_min * (1 - p.eclipse_fraction)

/-- Duration of eclipse (shadow) per orbit (minutes); property
`OrbitalParameters.eclipse_duration_min`. -/
def OrbitalParameters.eclipse_duration_min (p : OrbitalParameters) : ℝ :=
  p.orbital_period_min * p.eclipse_fraction

/-- Default orbital parameters: 400 km altitude, 92 min period,
0.35 eclipse fraction. -/
def defaultOrbitalParameters : OrbitalParameters :=
  { altitude_km := 400.0
    orbital_period_min := 92.0
    eclipse_fraction := 0.35 }

/-- Configuration for the water shield system (dataclass
`WaterShieldConfig`). -/
structure WaterShieldConfig where
  water_mass_kg : ℝ
  shield_thickness_cm : ℝ
  surface_area_m2 : ℝ
  specific_heat_capacity : ℝ
  latent_heat_fusion : ℝ
  hot_temp_celsius : ℝ
  cold_temp_celsius : ℝ

/-- Default water shield configuration (the dataclass defaults). -/
def defaultWaterShieldConfig : WaterShieldConfig :=
  { water_mass_kg := 1000.0
    shield_thickness_cm := 10.0
    surface_area_m2 := 20.0
    specific_heat_capacity := 4186.0
    latent_heat_fusion := 334000.0
    hot_temp_celsius := 50.0
    cold_temp_celsius := -20.0 }

/-- Galactic Cosmic Rays flux (mSv/day); class constant
`RadiationShield.GCR_FLUX_MSV_DAY`. -/
def GCR_FLUX_MSV_DAY : ℝ := 0.5

/-- Water shielding effectiveness; class constant
`RadiationShield.WATER_ATTENUATION_RATE`. -/
def WATER_ATTENUATION_RATE : ℝ := 0.15

/-- `RadiationShield.calculate_shielding_factor`: exponential
attenuation of radiation through the water shield. -/
def calculate_shielding_factor (config : WaterShieldConfig) : ℝ :=
  Real.exp (-WATER_ATTENUATION_RATE * config.shield_thickness_cm)

/-- Result record of `calculate_effective_dose_reduction`. -/
structure DoseReduction where
  unshielded_dose_msv : ℝ
  shielded_dose_msv : ℝ
  reduction_percent : ℝ
  shielding_factor : ℝ

/-- `RadiationShield.calculate_effective_dose_reduction`. -/
def calculate_effective_dose_reduction (config : WaterShieldConfig)
    (exposure_days : ℝ) : DoseReduction :=
  let shielding_factor := calculate_shielding_factor config
  let unshielded_dose_msv := GCR_FLUX_MSV_DAY * exposure_days
  let shielded_dose_msv := unshielded_dose_msv * shielding_factor
  let reduction_percent := (1 - shielding_factor) * 100
  { unshielded_dose_msv := unshielded_dose_msv
    shielded_dose_msv := shielded_dose_msv
    reduction_percent := reduction_percent
    shielding_factor := shielding_factor }

/-- Result record of `calculate_thermal_energy_capacity`. -/
structure ThermalCapacity where
  sensible_heat_mj : ℝ
  latent_heat_mj : ℝ
  total_capacity_mj : ℝ
  total_capacity_kwh : ℝ

/-- `ThermalCycleManager.calculate_thermal_energy_capacity`. -/
def calculate_thermal_energy_capacity (config : WaterShieldConfig) :
    ThermalCapacity :=
  let temp_delta_k := |config.hot_temp_celsius - config.cold_temp_celsius|
  let sensible_heat_j :=
    config.water_mass_kg * config.specific_heat_capacity * temp_delta_k
  let latent_heat_j := config.water_mass_kg * config.latent_heat_fusion
  let total_capacity_j := sensible_heat_j + latent_heat_j
  { sensible_heat_mj := sensible_heat_j / 1e6
    latent_heat_mj := latent_heat_j / 1e6
    total_capacity_mj := total_capacity_j / 1e6
    total_capacity_kwh := total_capacity_j / 3.6e6 }

/-- `ThermalCycleManager.calculate_heat_absorption_rate` (defaults
`solar_constant_w_m2 = 1361.0`, `absorption_coefficient = 0.7`). -/
def calculate_heat_absorption_rate (config : WaterShieldConfig)
    (solar_constant_w_m2 : ℝ) (absorption_coefficient : ℝ) : ℝ :=
  solar_constant_w_m2 * config.surface_area_m2 * absorption_coefficient

/-- Stefan-Boltzmann constant used in `calculate_heat_rejection_rate`. -/
def stefan_boltzmann : ℝ := 5.67e-8

/-- `ThermalCycleManager.calculate_heat_rejection_rate` (defaults
`space_temp_k = 3.0`, `emissivity = 0.95`). -/
def calculate_heat_rejection_rate (config : WaterShieldConfig)
    (space_temp_k : ℝ) (emissivity : ℝ) : ℝ :=
  let avg_temp_k := (config.hot_temp_celsius + 273.15 +
    config.cold_temp_celsius + 273.15) / 2
  emissivity * stefan_boltzmann * config.surface_area_m2 *
    (avg_temp_k ^ 4 - space_temp_k ^ 4)

/-- Peak power factor for phase change periods; class constant
`PowerGenerator.PEAK_POWER_MULTIPLIER`. -/
def PEAK_POWER_MULTIPLIER : ℝ := 2.0

/-- Result record of `calculate_power_output_per_orbit`. -/
structure PowerOutput where
  energy_per_orbit_kwh : ℝ
  avg_power_w : ℝ
  peak_power_w : ℝ
  daily_energy_kwh : ℝ
  conversion_efficiency : ℝ

/-- `PowerGenerator.calculate_power_output_per_orbit`, where the
generator wraps a `ThermalCycleManager` over `config` and `orbital`
and carries the scalar `efficiency`. -/
def calculate_power_output_per_orbit (config : WaterShieldConfig)
    (orbital : OrbitalParameters) (efficiency : ℝ) : PowerOutput :=
  let thermal_capacity := calculate_thermal_energy_capacity config
  let orbital_period_sec := orbital.orbital_period_min * 60
  let thermal_energy_j := thermal_capacity.total_capacity_mj * 1e6
  let electrical_energy_j := thermal_energy_j * efficiency
  let electrical_energy_kwh := electrical_energy_j / 3.6e6
  let avg_power_w := electrical_energy_j / orbital_period_sec
  let orbits_per_day := 1440 / orbital.orbital_period_min
  let daily_energy_kwh := electrical_energy_kwh * orbits_per_day
  { energy_per_orbit_kwh := electrical_energy_kwh
    avg_power_w := avg_power_w
    peak_power_w := avg_power_w * PEAK_POWER_MULTIPLIER
    daily_energy_kwh := daily_energy_kwh
    conversion_efficiency := efficiency }

/-- The aggregator `SatelliteWaterShield`: a water shield config, the
orbital parameters, and the thermoelectric conversion efficiency. -/
structure SatelliteWaterShield where
  water_config : WaterShieldConfig
  orbital_params : OrbitalParameters
  power_efficiency : ℝ

/-- Section `orbital_parameters` of the system status record. -/
structure OrbitalSection where
  altitude_km : ℝ
  orbital_period_min : ℝ
  sunlight_duration_min : ℝ
  eclipse_duration_min : ℝ

/-- Section `water_shield` of the system status record. -/
structure WaterShieldSection where
  water_mass_kg : ℝ
  shield_thickness_cm : ℝ
  surface_area_m2 : ℝ

/-- Section `thermal_rates` of the system status record. -/
structure ThermalRatesSection where
  heat_absorption_kw : ℝ
  heat_rejection_kw : ℝ

/-- The six named sections returned by `get_system_status`. -/
structure SystemStatus where
  orbital_parameters : OrbitalSection
  water_shield : WaterShieldSection
  radiation_protection : DoseReduction
  thermal_capacity : ThermalCapacity
  thermal_rates : ThermalRatesSection
  power_generation : PowerOutput

/-- `SatelliteWaterShield.get_system_status`: invokes all three
calculators (the two thermal rates with the source's default
arguments) and merges their outputs under the named sections. -/
def get_system_status (s : SatelliteWaterShield) (exposure_days : ℝ) :
    SystemStatus :=
  let radiation_metrics :=
    calculate_effective_dose_reduction s.water_config exposure_days
  let thermal_metrics := calculate_thermal_energy_capacity s.water_config
  let power_metrics :=
    calculate_power_output_per_orbit s.water_config s.orbital_params
      s.power_efficiency
  let heat_absorption := calculate_heat_absorption_rate s.water_config 1361.0 0.7
  let heat_rejection := calculate_heat_rejection_rate s.water_config 3.0 0.95
  { orbital_parameters :=
      { altitude_km := s.orbital_params.altitude_km
        orbital_period_min := s.orbital_params.orbital_period_min
        sunlight_duration_min := s.orbital_params.sunlight_duration_min
        eclipse_duration_min := s.orbital_params.eclipse_duration_min }
    water_shield :=
      { water_mass_kg := s.water_config.water_mass_kg
        shield_thickness_cm := s.water_config.shield_thickness_cm
        surface_area_m2 := s.water_config.surface_area_m2 }
    radiation_protection := radiation_metrics
    thermal_capacity := thermal_metrics
    thermal_rates :=
      { heat_absorption_kw := heat_absorption / 1000
        heat_rejection_kw := heat_rejection / 1000 }
    power_generation := power_metrics }

/-- C1: for every WaterShieldConfig, `calculate_thermal_energy_capacity`
returns sensible heat `mass * c * |hot - cold| / 1e6` MJ, latent heat
`mass * L / 1e6` MJ, a total equal to their sum, and the total energy in
joules divided by 3.6e6 as kWh. -/
theorem C1_thermal_energy_capacity (config : WaterShieldConfig) :
    (calculate_thermal_energy_capacity config).sensible_heat_mj =
      config.water_mass_kg * config.specific_heat_capacity *
        |config.hot_temp_celsius - config.cold_temp_celsius| / 1e6 ∧
    (calculate_thermal_energy_capacity config).latent_heat_mj =
      config.water_mass_kg * config.latent_heat_fusion / 1e6 ∧
    (calculate_thermal_energy_capacity config).total_capacity_mj =
      (calculate_thermal_energy_capacity config).sensible_heat_mj +
        (calculate_thermal_energy_capacity config).latent_heat_mj ∧
    (calculate_thermal_energy_capacity config).total_capacity_kwh =
      (config.water_mass_kg * config.specific_heat_capacity *
          |config.hot_temp_celsius - config.cold_temp_celsius| +
        config.water_mass_kg * config.latent_heat_fusion) / 3.6e6 := by
  refine ⟨rfl, rfl, ?_, rfl⟩
  simp only [calculate_thermal_energy_capacity]
  ring

/-- C2: for every WaterShieldConfig, `calculate_shielding_factor`
returns exactly `exp (-0.15 * shield_thickness_cm)`, the attenuation
constant being `0.15` per cm. -/
theorem C2_shielding_factor_formula (config : WaterShieldConfig) :
    calculate_shielding_factor config =
      Real.exp (-(0.15) * config.shield_thickness_cm) ∧
    WATER_ATTENUATION_RATE = 0.15 :=
  ⟨rfl, rfl⟩

/-- A second configuration used as a concrete witness: the defaults
with a 20 cm thick shield. -/
def thickerConfig : WaterShieldConfig :=
  { defaultWaterShieldConfig with shield_thickness_cm := 20.0 }

/-- C3: for thicknesses at least 0 the shielding factor lies strictly
in (0, 1], and it is strictly decreasing in the thickness. -/
theorem C3_shielding_factor_range_mono (c₁ c₂ : WaterShieldConfig)
    (h₁ : 0 ≤ c₁.shield_thickness_cm) (h₂ : 0 ≤ c₂.shield_thickness_cm) :
    (0 < calculate_shielding_factor c₁ ∧ calculate_shielding_factor c₁ ≤ 1) ∧
    (c₁.shield_thickness_cm < c₂.shield_thickness_cm →
      calculate_shielding_factor c₂ < calculate_shielding_factor c₁) := by
  unfold calculate_shielding_factor WATER_ATTENUATION_RATE
  refine ⟨⟨Real.exp_pos _, Real.exp_le_one_iff.mpr ?_⟩, fun hlt => ?_⟩
  · nlinarith
  · exact Real.exp_lt_exp.mpr (by nlinarith)

/-- Witness for C3 at the default configuration (10 cm) and the 20 cm
configuration. -/
theorem C3_witness :
    (0 < calculate_shielding_factor defaultWaterShieldConfig ∧
      calculate_shielding_factor defaultWaterShieldConfig ≤ 1) ∧
    (defaultWaterShieldConfig.shield_thickness_cm <
        thickerConfig.shield_thickness_cm →
      calculate_shielding_factor thickerConfig <
        calculate_shielding_factor defaultWaterShieldConfig) :=
  C3_shielding_factor_range_mono defaultWaterShieldConfig thickerConfig
    (by norm_num [defaultWaterShieldConfig])
    (by norm_num [thickerConfig, defaultWaterShieldConfig])

/-- C4: for exposure_days at least 0 and thickness at least 0,
`calculate_effective_dose_reduction` returns the stated fields, the
shielded dose does not exceed the unshielded dose, and the reduction
percentage lies in [0, 100). -/
theorem C4_dose_reduction (config : WaterShieldConfig) (exposure_days : ℝ)
    (hd : 0 ≤ exposure_days) (ht : 0 ≤ config.shield_thickness_cm) :
    (calculate_effective_dose_reduction config exposure_days).unshielded_dose_msv =
      0.5 * exposure_days ∧
    (calculate_effective_dose_reduction config exposure_days).shielded_dose_msv =
      (calculate_effective_dose_reduction config exposure_days).unshielded_dose_msv *
        calculate_shielding_factor config ∧
    (calculate_effective_dose_reduction config exposure_days).reduction_percent =
      (1 - calculate_shielding_factor config) * 100 ∧
    (calculate_effective_dose_reduction config exposure_days).shielding_factor =
      calculate_shielding_factor config ∧
    (calculate_effective_dose_reduction config exposure_days).shielded_dose_msv ≤
      (calculate_effective_dose_reduction config exposure_days).unshielded_dose_msv ∧
    0 ≤ (calculate_effective_dose_reduction config exposure_days).reduction_percent ∧
    (calculate_effective_dose_reduction config exposure_days).reduction_percent < 100 := by
  have hpos : 0 < calculate_shielding_factor config := Real.exp_pos _
  have hle : calculate_shielding_factor config ≤ 1 := by
    unfold calculate_shielding_factor WATER_ATTENUATION_RATE
    exact Real.exp_le_one_iff.mpr (by nlinarith)
  refine ⟨rfl, rfl, rfl, rfl, ?_, ?_, ?_⟩
  · simp only [calculate_effective_dose_reduction, GCR_FLUX_MSV_DAY]
    nlinarith
  · simp only [calculate_effective_dose_reduction]
    nlinarith
  · simp only [calculate_effective_dose_reduction]
    nlinarith

/-- Witness for C4 at the default configuration and 30 exposure days. -/
theorem C4_witness :
    (calculate_effective_dose_reduction defaultWaterShieldConfig 30).unshielded_dose_msv =
      0.5 * 30 ∧
    (calculate_effective_dose_reduction defaultWaterShieldConfig 30).shielded_dose_msv =
      (calculate_effective_dose_reduction defaultWaterShieldConfig 30).unshielded_dose_msv *
        calculate_shielding_factor defaultWaterShieldConfig ∧
    (calculate_effective_dose_reduction defaultWaterShieldConfig 30).reduction_percent =
      (1 - calculate_shielding_factor defaultWaterShieldConfig) * 100 ∧
    (calculate_effective_dose_reduction defaultWaterShieldConfig 30).shielding_factor =
      calculate_shielding_factor defaultWaterShieldConfig ∧
    (calculate_effective_dose_reduction defaultWaterShieldConfig 30).shielded_dose_msv ≤
      (calculate_effective_dose_reduction defaultWaterShieldConfig 30).unshielded_dose_msv ∧
    0 ≤ (calculate_effective_dose_reduction defaultWaterShieldConfig 30).reduction_percent ∧
    (calculate_effective_dose_reduction defaultWaterShieldConfig 30).reduction_percent < 100 :=
  C4_dose_reduction defaultWaterShieldConfig 30 (by norm_num)
    (by norm_num [defaultWaterShieldConfig])

/-- C5: with a positive orbital period, `calculate_power_output_per_orbit`
reports the electrical energy `total_capacity_mj * 1e6 * efficiency`
joules through its fields: average power is that energy over the period
in seconds, peak power is exactly twice the average power, daily energy
is the energy in kWh times the orbits per day, and the conversion
efficiency field is the configured efficiency. -/
theorem C5_power_output_fields (config : WaterShieldConfig)
    (orbital : OrbitalParameters) (efficiency : ℝ)
    (hp : 0 < orbital.orbital_period_min) :
    (calculate_power_output_per_orbit config orbital efficiency).avg_power_w =
      (calculate_thermal_energy_capacity config).total_capacity_mj * 1e6 *
        efficiency / (orbital.orbital_period_min * 60) ∧
    (calculate_power_output_per_orbit config orbital efficiency).peak_power_w =
      2 * (calculate_power_output_per_orbit config orbital efficiency).avg_power_w ∧
    (calculate_power_output_per_orbit config orbital efficiency).daily_energy_kwh =
      (calculate_thermal_energy_capacity config).total_capacity_mj * 1e6 *
        efficiency / 3.6e6 * (1440 / orbital.orbital_period_min) ∧
    (calculate_power_output_per_orbit config orbital efficiency).energy_per_orbit_kwh =
      (calculate_thermal_energy_capacity config).total_capacity_mj * 1e6 *
        efficiency / 3.6e6 ∧
    (calculate_power_output_per_orbit config orbital efficiency).conversion_efficiency =
      efficiency := by
  refine ⟨rfl, ?_, rfl, rfl, rfl⟩
  simp only [calculate_power_output_per_orbit, PEAK_POWER_MULTIPLIER]
  ring

/-- Witness for C5 at the default configuration, default orbit and
efficiency 0.15. -/
theorem C5_witness :
    (calculate_power_output_per_orbit defaultWaterShieldConfig
        defaultOrbitalParameters 0.15).avg_power_w =
      (calculate_thermal_energy_capacity defaultWaterShieldConfig).total_capacity_mj *
        1e6 * 0.15 / (defaultOrbitalParameters.orbital_period_min * 60) ∧
    (calculate_power_output_per_orbit defaultWaterShieldConfig
        defaultOrbitalParameters 0.15).peak_power_w =
      2 * (calculate_power_output_per_orbit defaultWaterShieldConfig
        defaultOrbitalParameters 0.15).avg_power_w ∧
    (calculate_power_output_per_orbit defaultWaterShieldConfig
        defaultOrbitalParameters 0.15).daily_energy_kwh =
      (calculate_thermal_energy_capacity defaultWaterShieldConfig).total_capacity_mj *
        1e6 * 0.15 / 3.6e6 *
        (1440 / defaultOrbitalParameters.orbital_period_min) ∧
    (calculate_power_output_per_orbit defaultWaterShieldConfig
        defaultOrbitalParameters 0.15).energy_per_orbit_kwh =
      (calculate_thermal_energy_capacity defaultWaterShieldConfig).total_capacity_mj *
        1e6 * 0.15 / 3.6e6 ∧
    (calculate_power_output_per_orbit defaultWaterShieldConfig
        defaultOrbitalParameters 0.15).conversion_efficiency = 0.15 :=
  C5_power_output_fields defaultWaterShieldConfig defaultOrbitalParameters 0.15
    (by norm_num [defaultOrbitalParameters])

/-- A degenerate configuration with positive water mass but zero
thermal capacity: equal operating temperatures and zero latent heat of
fusion. -/
def degenerateConfig : WaterShieldConfig :=
  { defaultWaterShieldConfig with
      water_mass_kg := 1.0
      latent_heat_fusion := 0.0
      hot_temp_celsius := 50.0
      cold_temp_celsius := 50.0 }

/-- C6 counterexample: a configuration with positive water mass and a
positive orbital period on which raising the efficiency from 0.5 to 1
does not strictly increase avg_power_w (the thermal capacity is zero,
so the average power is 0 at both efficiencies). -/
theorem C6_counterexample :
    0 < degenerateConfig.water_mass_kg ∧
    0 < defaultOrbitalParameters.orbital_period_min ∧
    0 < (0.5 : ℝ) ∧ (0.5 : ℝ) < 1 ∧ (1 : ℝ) ≤ 1 ∧
    ¬ ((calculate_power_output_per_orbit degenerateConfig
          defaultOrbitalParameters 0.5).avg_power_w <
        (calculate_power_output_per_orbit degenerateConfig
          defaultOrbitalParameters 1).avg_power_w) := by
  norm_num [calculate_power_output_per_orbit, calculate_thermal_energy_capacity,
    degenerateConfig, defaultWaterShieldConfig, defaultOrbitalParameters]

/-- C6 amended: for every configuration and orbit with positive water
mass, positive orbital period and positive total thermal capacity,
avg_power_w and daily_energy_kwh are strictly increasing in the
efficiency over (0, 1]. -/
theorem C6_power_strict_mono_in_efficiency (config : WaterShieldConfig)
    (orbital : OrbitalParameters) (e₁ e₂ : ℝ)
    (hm : 0 < config.water_mass_kg) (hp : 0 < orbital.orbital_period_min)
    (hc : 0 < (calculate_thermal_energy_capacity config).total_capacity_mj)
    (he₁ : 0 < e₁) (h₁₂ : e₁ < e₂) (he₂ : e₂ ≤ 1) :
    (calculate_power_output_per_orbit config orbital e₁).avg_power_w <
      (calculate_power_output_per_orbit config orbital e₂).avg_power_w ∧
    (calculate_power_output_per_orbit config orbital e₁).daily_energy_kwh <
      (calculate_power_output_per_orbit config orbital e₂).daily_energy_kwh := by
  simp only [calculate_power_output_per_orbit]
  set C := (calculate_thermal_energy_capacity config).total_capacity_mj with hC
  have hkey : C * 1e6 * e₁ < C * 1e6 * e₂ := by nlinarith
  constructor
  · exact (div_lt_div_iff_of_pos_right (by positivity)).mpr hkey
  · have hinner : C * 1e6 * e₁ / 3.6e6 < C * 1e6 * e₂ / 3.6e6 :=
      (div_lt_div_iff_of_pos_right (by norm_num)).mpr hkey
    exact mul_lt_mul_of_pos_right hinner (by positivity)

/-- Witness for the amended C6 at the default configuration and orbit,
with efficiencies 0.1 and 0.15. -/
theorem C6_witness :
    (calculate_power_output_per_orbit defaultWaterShieldConfig
        defaultOrbitalParameters 0.1).avg_power_w <
      (calculate_power_output_per_orbit defaultWaterShieldConfig
        defaultOrbitalParameters 0.15).avg_power_w ∧
    (calculate_power_output_per_orbit defaultWaterShieldConfig
        defaultOrbitalParameters 0.1).daily_energy_kwh <
      (calculate_power_output_per_orbit defaultWaterShieldConfig
        defaultOrbitalParameters 0.15).daily_energy_kwh :=
  C6_power_strict_mono_in_efficiency defaultWaterShieldConfig
    defaultOrbitalParameters 0.1 0.15
    (by norm_num [defaultWaterShieldConfig])
    (by norm_num [defaultOrbitalParameters])
    (by norm_num [calculate_thermal_energy_capacity, defaultWaterShieldConfig,
      abs_of_nonneg])
    (by norm_num) (by norm_num) (by norm_num)

/-- C7: with eclipse_fraction in [0, 1] and a positive orbital period,
the derived durations are `period * (1 - fraction)` and
`period * fraction`, and they sum to the orbital period. -/
theorem C7_durations_sum (p : OrbitalParameters)
    (h₀ : 0 ≤ p.eclipse_fraction) (h₁ : p.eclipse_fraction ≤ 1)
    (hp : 0 < p.orbital_period_min) :
    p.sunlight_duration_min =
      p.orbital_period_min * (1 - p.eclipse_fraction) ∧
    p.eclipse_duration_min = p.orbital_period_min * p.eclipse_fraction ∧
    p.sunlight_duration_min + p.eclipse_duration_min =
      p.orbital_period_min := by
  refine ⟨rfl, rfl, ?_⟩
  unfold OrbitalParameters.sunlight_duration_min
    OrbitalParameters.eclipse_duration_min
  ring

/-- Witness for C7 at the default orbital parameters. -/
theorem C7_witness :
    defaultOrbitalParameters.sunlight_duration_min =
      defaultOrbitalParameters.orbital_period_min *
        (1 - defaultOrbitalParameters.eclipse_fraction) ∧
    defaultOrbitalParameters.eclipse_duration_min =
      defaultOrbitalParameters.orbital_period_min *
        defaultOrbitalParameters.eclipse_fraction ∧
    defaultOrbitalParameters.sunlight_duration_min +
        defaultOrbitalParameters.eclipse_duration_min =
      defaultOrbitalParameters.orbital_period_min :=
  C7_durations_sum defaultOrbitalParameters
    (by norm_num [defaultOrbitalParameters])
    (by norm_num [defaultOrbitalParameters])
    (by norm_num [defaultOrbitalParameters])

/-- C8 counterexample: at the default configuration with
space_temp_k = 1000 and emissivity = 0, the fourth power of the space
temperature exceeds that of the average shield temperature, yet the
returned rate is 0, not negative. -/
theorem C8_counterexample :
    ((defaultWaterShieldConfig.hot_temp_celsius + 273.15 +
        defaultWaterShieldConfig.cold_temp_celsius + 273.15) / 2) ^ 4 <
      (1000 : ℝ) ^ 4 ∧
    ¬ (calculate_heat_rejection_rate defaultWaterShieldConfig 1000 0 < 0) := by
  constructor
  · norm_num [defaultWaterShieldConfig]
  · norm_num [calculate_heat_rejection_rate, stefan_boltzmann,
      defaultWaterShieldConfig]

/-- C8 amended: the heat rejection rate equals
`emissivity * 5.67e-8 * surface_area * (T_avg^4 - space_temp^4)` with
`T_avg = (hot_C + 273.15 + cold_C + 273.15) / 2`, and when the
emissivity and the surface area are positive and `space_temp^4`
exceeds `T_avg^4` the returned value is negative (there is no error
flagging: the function totally returns this value). -/
theorem C8_heat_rejection (config : WaterShieldConfig)
    (space_temp_k emissivity : ℝ) :
    calculate_heat_rejection_rate config space_temp_k emissivity =
      emissivity * 5.67e-8 * config.surface_area_m2 *
        (((config.hot_temp_celsius + 273.15 +
            config.cold_temp_celsius + 273.15) / 2) ^ 4 -
          space_temp_k ^ 4) ∧
    (0 < emissivity → 0 < config.surface_area_m2 →
      ((config.hot_temp_celsius + 273.15 +
          config.cold_temp_celsius + 273.15) / 2) ^ 4 < space_temp_k ^ 4 →
      calculate_heat_rejection_rate config space_temp_k emissivity < 0) := by
  refine ⟨rfl, fun hem ha hT => ?_⟩
  unfold calculate_heat_rejection_rate stefan_boltzmann
  have hpos : 0 < emissivity * 5.67e-8 * config.surface_area_m2 := by positivity
  exact mul_neg_of_pos_of_neg hpos (by linarith)

/-- Witness for the amended C8 at the default configuration with
space_temp_k = 1000 and emissivity = 0.95. -/
theorem C8_witness :
    calculate_heat_rejection_rate defaultWaterShieldConfig 1000 0.95 =
      0.95 * 5.67e-8 * defaultWaterShieldConfig.surface_area_m2 *
        (((defaultWaterShieldConfig.hot_temp_celsius + 273.15 +
            defaultWaterShieldConfig.cold_temp_celsius + 273.15) / 2) ^ 4 -
          (1000 : ℝ) ^ 4) ∧
    calculate_heat_rejection_rate defaultWaterShieldConfig 1000 0.95 < 0 :=
  ⟨(C8_heat_rejection defaultWaterShieldConfig 1000 0.95).1,
    (C8_heat_rejection defaultWaterShieldConfig 1000 0.95).2 (by norm_num)
      (by norm_num [defaultWaterShieldConfig])
      (by norm_num [defaultWaterShieldConfig])⟩

/-- The default satellite water shield system: default configuration,
default orbit, efficiency 0.15. -/
def defaultShield : SatelliteWaterShield :=
  { water_config := defaultWaterShieldConfig
    orbital_params := defaultOrbitalParameters
    power_efficiency := 0.15 }

/-- C9: for every system and exposure_days at least 0,
`get_system_status` returns exactly the six sections, the orbital and
water shield sections echoing the configuration, the other sections the
three calculators' outputs, with the two thermal rates in kW being the
watt-valued rates divided by 1000. -/
theorem C9_system_status (s : SatelliteWaterShield) (exposure_days : ℝ)
    (hd : 0 ≤ exposure_days) :
    get_system_status s exposure_days =
      { orbital_parameters :=
          { altitude_km := s.orbital_params.altitude_km
            orbital_period_min := s.orbital_params.orbital_period_min
            sunlight_duration_min := s.orbital_params.sunlight_duration_min
            eclipse_duration_min := s.orbital_params.eclipse_duration_min }
        water_shield :=
          { water_mass_kg := s.water_config.water_mass_kg
            shield_thickness_cm := s.water_config.shield_thickness_cm
            surface_area_m2 := s.water_config.surface_area_m2 }
        radiation_protection :=
          calculate_effective_dose_reduction s.water_config exposure_days
        thermal_capacity := calculate_thermal_energy_capacity s.water_config
        thermal_rates :=
          { heat_absorption_kw :=
              calculate_heat_absorption_rate s.water_config 1361.0 0.7 / 1000
            heat_rejection_kw :=
              calculate_heat_rejection_rate s.water_config 3.0 0.95 / 1000 }
        power_generation :=
          calculate_power_output_per_orbit s.water_config s.orbital_params
            s.power_efficiency } :=
  rfl

/-- Witness for C9 at the default system with 30 exposure days. -/
theorem C9_witness :
    get_system_status defaultShield 30 =
      { orbital_parameters :=
          { altitude_km := defaultShield.orbital_params.altitude_km
            orbital_period_min := defaultShield.orbital_params.orbital_period_min
            sunlight_duration_min :=
              defaultShield.orbital_params.sunlight_duration_min
            eclipse_duration_min :=
              defaultShield.orbital_params.eclipse_duration_min }
        water_shield :=
          { water_mass_kg := defaultShield.water_config.water_mass_kg
            shield_thickness_cm :=
              defaultShield.water_config.shield_thickness_cm
            surface_area_m2 := defaultShield.water_config.surface_area_m2 }
        radiation_protection :=
          calculate_effective_dose_reduction defaultShield.water_config 30
        thermal_capacity :=
          calculate_thermal_energy_capacity defaultShield.water_config
        thermal_rates :=
          { heat_absorption_kw :=
              calculate_heat_absorption_rate defaultShield.water_config
                1361.0 0.7 / 1000
            heat_rejection_kw :=
              calculate_heat_rejection_rate defaultShield.water_config
                3.0 0.95 / 1000 }
        power_generation :=
          calculate_power_output_per_orbit defaultShield.water_config
            defaultShield.orbital_params defaultShield.power_efficiency } :=
  C9_system_status defaultShield 30 (by norm_num)

/-- C10: with a positive orbital period, the daily energy field always
equals the average power in kilowatts times 24 hours:
`daily_energy_kwh = avg_power_w * 24 / 1000`. -/
theorem C10_daily_energy_from_avg_power (config : WaterShieldConfig)
    (orbital : OrbitalParameters) (efficiency : ℝ)
    (hp : 0 < orbital.orbital_period_min) :
    (calculate_power_output_per_orbit config orbital efficiency).daily_energy_kwh =
      (calculate_power_output_per_orbit config orbital efficiency).avg_power_w *
        24 / 1000 := by
  simp only [calculate_power_output_per_orbit]
  have hP : orbital.orbital_period_min ≠ 0 := ne_of_gt hp
  field_simp
  ring

/-- Witness for C10 at the default configuration, default orbit and
efficiency 0.15. -/
theorem C10_witness :
    (calculate_power_output_per_orbit defaultWaterShieldConfig
        defaultOrbitalParameters 0.15).daily_energy_kwh =
      (calculate_power_output_per_orbit defaultWaterShieldConfig
          defaultOrbitalParameters 0.15).avg_power_w * 24 / 1000 :=
  C10_daily_energy_from_avg_power defaultWaterShieldConfig
    defaultOrbitalParameters 0.15 (by norm_num [defaultOrbitalParameters])

end WaterShield
